import Mathlib

/-!
Verification of the sheet-export and manifest tool
(.github/scripts/build-uprn-service-config.py).

The Python script exports every sheet of an Excel workbook to a CSV file
and maintains a JSON manifest recording the source file hash, the per-CSV
hashes and a version number that is bumped exactly when the source hash
changes.  This file gives a shallow embedding of the script's pure logic:

* `safe_filename`           - the sheet-name sanitizer (line 58-64);
* `read_json`               - previous-manifest reading (line 67-71),
                              over a file-state abstraction;
* `OutputEntry`             - the per-sheet record (line 82-89);
* `export_sheets_to_csv`    - the entries computed by the export loop and
                              the final sort (line 95-123);
* `next_version`            - the version rule (line 126-132);
* `build_manifest`          - the manifest builder (line 135-151);
* `main_run`                - the orchestrator (line 165-186), as a
                              transformer of an explicit `World` state that
                              carries the file system facts main consults.

Modelling conventions: file contents and hashes are `String`s; the sha256
function itself is an external library call, so every theorem is stated for
an arbitrary hash function `hash : String → String`; `Path.as_posix` on the
already-POSIX CLI strings is the identity, and `Path.stem` is `pathStem`
below.  A present manifest file is represented by the JSON-parse outcome of
its contents (`Except String ManifestDoc`), since `json.loads` is
deterministic in the contents; `ManifestDoc` keeps exactly the fields
`next_version` consults (`version`, `source.sha256`), each optional, to
model their JSON absence semantics.
-/

/-! ## Sheet-name sanitization (safe_filename, line 58-64) -/

/-- Python `str.isalnum` on the characters appearing in sheet names
(alphanumeric test used by `safe_filename`). -/
def pyIsAlnum (c : Char) : Bool := c.isAlphanum

/-- The characters `safe_filename` keeps: `c.isalnum() or c in ("-", "_")`. -/
def keepChar (c : Char) : Bool := pyIsAlnum c || c == '-' || c == '_'

/-- The generator expression of line 63: keep allowed characters, replace
every other character with an underscore. -/
def replaceDisallowed (name : String) : List Char :=
  name.toList.map (fun c => if keepChar c then c else '_')

/-- Python `.strip("_")`: remove leading and trailing underscores. -/
def stripUnderscores (l : List Char) : List Char :=
  ((l.dropWhile (fun c => c == '_')).reverse.dropWhile (fun c => c == '_')).reverse

/-- Embedding of `safe_filename` (line 58-64): sanitize a sheet name into a
filename stem; an empty result falls back to the literal `"sheet"`
(Python `cleaned or "sheet"`). -/
def safe_filename (name : String) : String :=
  let cleaned := stripUnderscores (replaceDisallowed name)
  if cleaned.isEmpty then "sheet" else String.mk cleaned

/-- Modelled from the spec's words (step 2 of the Sheet Exporter contract),
for comparison with the code's `safe_filename`: replace every character
that is not alphanumeric and not a hyphen and not an underscore with an
underscore, strip leading and trailing underscores, and if the result is
the empty string use the literal stem `"sheet"`. -/
def specSanitizeStem (name : String) : String :=
  let replaced := name.toList.map (fun c => if pyIsAlnum c || c == '-' || c == '_' then c else '_')
  let stripped := (replaced.dropWhile (fun c => c == '_')).reverse.dropWhile (fun c => c == '_')
  if stripped.reverse = [] then "sheet" else String.mk stripped.reverse

/-! ## Manifest documents as read back from JSON -/

/-- The `source` sub-object of a previous manifest, restricted to the field
`next_version` consults; `none` models JSON absence of `sha256`. -/
structure SourceDoc where
  sha256 : Option String
deriving DecidableEq

/-- A previous manifest document as a JSON dictionary, restricted to the
fields the script consults; `none` models absence of the field. -/
structure ManifestDoc where
  version : Option Int
  source : Option SourceDoc
deriving DecidableEq

/-- The empty JSON dictionary `{}` returned for an absent manifest file. -/
def emptyDict : ManifestDoc := { version := none, source := none }

/-- State of the manifest file on disk: absent, or present with the
JSON-parse outcome of its contents (`json.loads` is deterministic in the
contents, so the parse outcome determines the behaviour of `read_json`). -/
inductive FileState where
  | absent
  | present (parsed : Except String ManifestDoc)

/-- Embedding of `read_json` (line 67-71): if the file exists, return the
result of parsing it (a parse failure propagates as the error); if the file
is absent, return the empty dictionary. -/
def read_json : FileState → Except String ManifestDoc
  | .absent => .ok emptyDict
  | .present parsed => parsed

/-! ## Version rule (next_version, line 126-132) -/

/-- Embedding of `next_version` (line 126-132): bump the version exactly
when the new source hash differs from the recorded one; absent version
defaults to 0, absent source or absent recorded hash defaults to the empty
string. -/
def next_version (old_manifest : ManifestDoc) (new_excel_sha : String) : Int :=
  let old_version : Int := old_manifest.version.getD 0
  let old_sha : String := ((old_manifest.source.getD { sha256 := none }).sha256).getD ""
  if new_excel_sha ≠ old_sha then old_version + 1 else old_version

/-- The previous version as the claims read it: the `version` field,
defaulting to 0 when absent. -/
def prevVersion (d : ManifestDoc) : Int := d.version.getD 0

/-- The recorded source hash as the claims read it: `source.sha256`,
defaulting to the empty string when the source object or the hash field is
absent. -/
def prevSha (d : ManifestDoc) : String :=
  ((d.source.getD { sha256 := none }).sha256).getD ""

/-! ## Output entries and the export computation (line 82-123) -/

/-- Embedding of the frozen dataclass `OutputEntry` (line 82-89). -/
structure OutputEntry where
  sheet_name : String
  csv_path : String
  sha256 : String
deriving DecidableEq

/-- A workbook sheet: its name and the CSV text `DataFrame.to_csv` renders
for it (header row plus data rows; the exact rendering is external library
behaviour and is carried as data). -/
structure Sheet where
  name : String
  csv : String

/-- Python `Path(p).stem`: the final path component without its last
suffix; a dot at position 0 or at the very end of the name yields no
suffix. -/
def pathStem (p : String) : String :=
  let cs := (p.toList.reverse.takeWhile (fun c => c != '/')).reverse
  let i := cs.length - 1 - cs.reverse.indexOf '.'
  if cs.contains '.' && decide (0 < i) && decide (i < cs.length - 1) then
    String.mk (cs.take i)
  else String.mk cs

/-- The POSIX path of the CSV written for one sheet:
`outdir/<workbook-stem>/<safe-sheet-name>.csv` (line 104 and 111). -/
def csvPathFor (outdir excel_path name : String) : String :=
  outdir ++ "/" ++ pathStem excel_path ++ "/" ++ safe_filename name ++ ".csv"

/-- The sort key comparison of line 123: Python `sorted(..., key=...)`
orders entries by `csv_path` ascending. -/
def csvLe (a b : OutputEntry) : Bool := decide (a.csv_path ≤ b.csv_path)

/-- Embedding of the value computed by `export_sheets_to_csv` (line
95-123): one entry per sheet in workbook order, each holding the sheet
name, the CSV path, and the hash of the CSV contents written for that
sheet (each file is hashed immediately after being written, so even when a
later sheet overwrites the same path the recorded hash is the hash of this
sheet's own CSV text); the final list is sorted by `csv_path`. -/
def export_sheets_to_csv (hash : String → String) (excel_path outdir : String)
    (sheets : List Sheet) : List OutputEntry :=
  let outputs := sheets.map (fun s =>
    { sheet_name := s.name
      csv_path := csvPathFor outdir excel_path s.name
      sha256 := hash s.csv : OutputEntry })
  outputs.mergeSort csvLe

/-! ## Manifest builder (build_manifest, line 135-151) -/

/-- The `source` object of a freshly built manifest (line 146-149). -/
structure SourceInfo where
  path : String
  sha256 : String
deriving DecidableEq

/-- A freshly built manifest document (line 143-151). -/
structure Manifest where
  version : Int
  generated_dir : String
  source : SourceInfo
  output : List OutputEntry
deriving DecidableEq

/-- Embedding of `build_manifest` (line 135-151).  The `manifest_path`
parameter is accepted, as in the source, but never used; the previous
manifest is not a parameter at all. -/
def build_manifest (excel_path outdir manifest_path : String)
    (outputs : List OutputEntry) (excel_sha : String) (version : Int) : Manifest :=
  { version := version
    generated_dir := outdir
    source := { path := excel_path, sha256 := excel_sha }
    output := outputs }

/-- Reading back a written manifest: the JSON document written by
`write_json` parses to a dictionary whose `version` and `source.sha256`
fields are exactly those of the built manifest. -/
def manifestToDoc (m : Manifest) : ManifestDoc :=
  { version := some m.version
    source := some { sha256 := some m.source.sha256 } }

/-! ## The orchestrator (main, line 165-186) over an explicit world state -/

/-- The file-system facts `main` consults and updates.  `excelExists`
models the line-172 existence check; `excelSha` is the sha256 of the
source bytes (defined when the file exists); `hashReadOk` models whether
the source bytes can be read for hashing; `workbook` is the outcome of
parsing the workbook (`pd.ExcelFile`); `csvWriteOk p` tells whether a CSV
write to path `p` succeeds; `csvFiles` are the CSV files on disk, newest
write first; `manifestFile` is the manifest file. -/
structure World where
  excelExists : Bool
  excelSha : String
  hashReadOk : Bool
  workbook : Except String (List Sheet)
  csvWriteOk : String → Bool
  csvFiles : List (String × String)
  manifestFile : FileState

/-- The export loop of `export_sheets_to_csv` (line 107-120) as a world
transformer: write each sheet's CSV in workbook order, hash it, and
accumulate the entries; a failing write aborts the loop, leaving the CSVs
already written on disk. -/
def exportLoop (hash : String → String) (excel_path outdir : String) :
    List Sheet → World → List OutputEntry →
    Except (String × World) (World × List OutputEntry)
  | [], w, acc => .ok (w, acc)
  | s :: rest, w, acc =>
    let path := csvPathFor outdir excel_path s.name
    if w.csvWriteOk path then
      exportLoop hash excel_path outdir rest
        { w with csvFiles := (path, s.csv) :: w.csvFiles }
        (acc ++ [{ sheet_name := s.name, csv_path := path, sha256 := hash s.csv }])
    else
      .error ("I/O error writing " ++ path, w)

/-- Embedding of `main` (line 165-186) as a world transformer.  The steps
run in the source's order: source-existence check, previous-manifest read,
source hashing, workbook parse plus sheet export, version computation,
manifest build, manifest write.  An error aborts the run, returning the
world as it stood at the failure (so CSVs already written remain); only
the final step replaces the manifest file, whose new contents parse back
to the built manifest. -/
def main_run (hash : String → String) (excel outdir manifest_path : String)
    (w : World) : Except (String × World) World :=
  if w.excelExists = false then
    .error ("Excel file not found: " ++ excel, w)
  else
    match read_json w.manifestFile with
    | .error e => .error (e, w)
    | .ok old_manifest =>
      if w.hashReadOk = false then
        .error ("I/O error reading " ++ excel, w)
      else
        match w.workbook with
        | .error e => .error (e, w)
        | .ok sheets =>
          match exportLoop hash excel outdir sheets w [] with
          | .error ew => .error ew
          | .ok (w1, outputs0) =>
            let outputs := outputs0.mergeSort csvLe
            let version := next_version old_manifest w.excelSha
            let m := build_manifest excel outdir manifest_path outputs w.excelSha version
            .ok { w1 with manifestFile := .present (.ok (manifestToDoc m)) }

/-- The version recorded in a manifest file, when it holds a parseable
document with a version field. -/
def manifestVersion : FileState → Option Int
  | .present (.ok d) => d.version
  | _ => none

/-! ## Claim C1: the version rule -/

/-- Claim C1: for every previous manifest document and every new source
hash, `next_version` returns the previous version plus one when the
recorded source hash (absent manifest, version or hash contributing the
stated defaults) differs from the new hash, and returns the previous
version unchanged when the two hashes are equal; in particular a first run
with no prior manifest (the empty dictionary, any non-empty new hash)
produces version 1. -/
theorem next_version_rule (old : ManifestDoc) (new_sha : String) :
    (prevSha old ≠ new_sha → next_version old new_sha = prevVersion old + 1)
    ∧ (prevSha old = new_sha → next_version old new_sha = prevVersion old)
    ∧ (new_sha ≠ "" → next_version emptyDict new_sha = 1) := by
  refine ⟨?_, ?_, ?_⟩
  · intro h
    have hne : new_sha ≠ ((old.source.getD { sha256 := none }).sha256).getD "" :=
      fun he => h (by simpa [prevSha] using he.symm)
    simp [next_version, prevVersion, hne]
  · intro h
    have he : new_sha = ((old.source.getD { sha256 := none }).sha256).getD "" := by
      simpa [prevSha] using h.symm
    simp [next_version, prevVersion, he]
  · intro h
    simp [next_version, emptyDict, h]

/-- Witness for C1: concrete instantiations of each case of the rule. -/
theorem next_version_rule_witness :
    (prevSha emptyDict ≠ "abc" ∧ next_version emptyDict "abc" = prevVersion emptyDict + 1)
    ∧ (prevSha { version := some 3, source := some { sha256 := some "s1" } } = "s1"
        ∧ next_version { version := some 3, source := some { sha256 := some "s1" } } "s1"
            = prevVersion { version := some 3, source := some { sha256 := some "s1" } })
    ∧ (("abc" : String) ≠ "" ∧ next_version emptyDict "abc" = 1) :=
  ⟨⟨by decide, (next_version_rule emptyDict "abc").1 (by decide)⟩,
   ⟨by decide,
    (next_version_rule { version := some 3, source := some { sha256 := some "s1" } } "s1").2.1
      (by decide)⟩,
   ⟨by decide, (next_version_rule emptyDict "abc").2.2 (by decide)⟩⟩

/-! ## Claim C10: monotonicity of the version -/

/-- Claim C10: the computed new version is greater than or equal to the
previous version (the `version` field read as an integer, 0 when absent),
for every previous manifest document and every new source hash. -/
theorem next_version_monotone (old : ManifestDoc) (new_sha : String) :
    prevVersion old ≤ next_version old new_sha := by
  simp only [next_version, prevVersion]
  split <;> omega

/-! ## Claim C9: the builder is a pure function of its five inputs -/

/-- Claim C9: `build_manifest` is deterministic and its result depends only
on the version, the output directory, the source path, the new source hash
and the output entries: the `manifest_path` argument is ignored, and the
previous manifest is not an input of the builder at all (no field of the
result is merged from it). -/
theorem build_manifest_pure (excel_path outdir : String) (mp1 mp2 : String)
    (outputs : List OutputEntry) (excel_sha : String) (version : Int) :
    build_manifest excel_path outdir mp1 outputs excel_sha version
      = build_manifest excel_path outdir mp2 outputs excel_sha version := rfl

/-! ## Claim C7: malformed manifest JSON -/

/-- Claim C7, counterexample to the final clause: a present manifest file
whose contents parse to the empty JSON dictionary (a file containing
exactly the text of an empty object) also yields the empty document, so an
absent file is not the only state that yields it. -/
theorem read_json_empty_without_absent :
    read_json (FileState.present (.ok emptyDict)) = .ok emptyDict
    ∧ FileState.present (.ok emptyDict) ≠ FileState.absent :=
  ⟨rfl, fun h => nomatch h⟩

/-- Claim C7 (amended): a manifest file that exists but does not parse
yields the parse error, which `main` propagates, aborting the run; a
malformed manifest is never treated as an absent or empty previous
manifest; an absent file yields the empty dictionary; and a present file
yields exactly the outcome of parsing its contents (which can itself be
the empty document when the contents parse to an empty object). -/
theorem read_json_error_propagates :
    (∀ e : String, read_json (FileState.present (.error e)) = .error e)
    ∧ read_json FileState.absent = .ok emptyDict
    ∧ (∀ parsed, read_json (FileState.present parsed) = parsed)
    ∧ (∀ (hash : String → String) (excel outdir manifest_path e : String) (w : World),
        w.excelExists = true → w.manifestFile = FileState.present (.error e) →
        main_run hash excel outdir manifest_path w = .error (e, w)) := by
  refine ⟨fun _ => rfl, rfl, fun _ => rfl, ?_⟩
  intro hash excel outdir manifest_path e w h1 h2
  rw [main_run, h2]
  simp [h1, read_json]

/-- Witness for C7's amended theorem: a concrete world whose manifest file
holds unparseable JSON makes the whole run abort with that parse error. -/
theorem read_json_error_propagates_witness :
    (World.excelExists
        { excelExists := true, excelSha := "abc", hashReadOk := true,
          workbook := .ok [], csvWriteOk := fun _ => true, csvFiles := [],
          manifestFile := FileState.present (.error "invalid json") } = true)
    ∧ main_run (fun c => c) "d.xlsx" "out" "m.json"
        { excelExists := true, excelSha := "abc", hashReadOk := true,
          workbook := .ok [], csvWriteOk := fun _ => true, csvFiles := [],
          manifestFile := FileState.present (.error "invalid json") }
      = .error ("invalid json",
          { excelExists := true, excelSha := "abc", hashReadOk := true,
            workbook := .ok [], csvWriteOk := fun _ => true, csvFiles := [],
            manifestFile := FileState.present (.error "invalid json") }) :=
  ⟨rfl,
   read_json_error_propagates.2.2.2 (fun c => c) "d.xlsx" "out" "m.json" "invalid json"
     { excelExists := true, excelSha := "abc", hashReadOk := true,
       workbook := .ok [], csvWriteOk := fun _ => true, csvFiles := [],
       manifestFile := FileState.present (.error "invalid json") } rfl rfl⟩

/-! ## Claim C4: the sanitizer computes the spec's transformation -/

/-- Helper for C4: the two emptiness tests agree. -/
theorem stem_default_eq (L : List Char) :
    (if L.isEmpty then "sheet" else String.mk L)
      = (if L = [] then "sheet" else String.mk L) := by
  cases L <;> simp

/-- Claim C4: for every sheet name, the code's `safe_filename` equals the
transformation the spec describes: replace every character that is not
alphanumeric, not a hyphen and not an underscore with an underscore, strip
leading and trailing underscores, and fall back to the literal stem
`"sheet"` when the result is empty. -/
theorem safe_filename_matches_spec (name : String) :
    safe_filename name = specSanitizeStem name := by
  simp only [safe_filename, specSanitizeStem, replaceDisallowed, stripUnderscores, keepChar]
  exact stem_default_eq _

/-! ## Claim C5: the sanitizer is idempotent -/

/-- Helper: a list whose head fails the predicate is untouched by
`dropWhile`. -/
theorem dropWhile_of_head_false {α : Type} {p : α → Bool} {l : List α}
    (h : ∀ a, l.head? = some a → p a = false) : l.dropWhile p = l := by
  cases l with
  | nil => rfl
  | cons a t => simp [List.dropWhile_cons, h a rfl]

/-- Helper: the head of a `dropWhile` result fails the predicate. -/
theorem head?_dropWhile_false {α : Type} (p : α → Bool) (l : List α) (a : α)
    (h : (l.dropWhile p).head? = some a) : p a = false := by
  cases hd : l.dropWhile p with
  | nil => rw [hd] at h; cases h
  | cons b t =>
    have hne : l.dropWhile p ≠ [] := by rw [hd]; exact fun hh => nomatch hh
    have hb := List.head_dropWhile_not p l hne
    rw [hd] at h
    simp only [List.head?_cons, Option.some_inj] at h
    rw [← h]
    simpa [hd] using hb

/-- Helper: `dropWhile` is idempotent. -/
theorem dropWhile_dropWhile_self {α : Type} (p : α → Bool) (m : List α) :
    (m.dropWhile p).dropWhile p = m.dropWhile p :=
  dropWhile_of_head_false (fun a ha => head?_dropWhile_false p m a ha)

/-- Helper: a nonempty `dropWhile` result keeps the last element of its
input. -/
theorem getLast?_dropWhile {α : Type} (p : α → Bool) (l : List α)
    (h : l.dropWhile p ≠ []) : (l.dropWhile p).getLast? = l.getLast? := by
  obtain ⟨t, ht⟩ := List.dropWhile_suffix (l := l) p
  conv_rhs => rw [← ht]
  rw [List.getLast?_append_of_ne_nil _ h]

/-- Helper: stripping a predicate from both ends twice equals stripping
once. -/
theorem strip_twice {α : Type} (p : α → Bool) (l : List α) :
    (((((l.dropWhile p).reverse.dropWhile p).reverse.dropWhile p).reverse.dropWhile p).reverse)
      = ((l.dropWhile p).reverse.dropWhile p).reverse := by
  have h1 : (((l.dropWhile p).reverse.dropWhile p).reverse).dropWhile p
      = ((l.dropWhile p).reverse.dropWhile p).reverse := by
    apply dropWhile_of_head_false
    intro a ha
    rw [List.head?_reverse] at ha
    have hne : (l.dropWhile p).reverse.dropWhile p ≠ [] := by
      intro hn; rw [hn] at ha; cases ha
    rw [getLast?_dropWhile _ _ hne, List.getLast?_reverse] at ha
    exact head?_dropWhile_false p l a ha
  rw [h1, List.reverse_reverse, dropWhile_dropWhile_self]

/-- Helper: stripping underscores twice equals stripping once. -/
theorem stripUnderscores_idem (l : List Char) :
    stripUnderscores (stripUnderscores l) = stripUnderscores l :=
  strip_twice _ l

/-- Helper: every character produced by the replacement step is a kept
character (alphanumeric, hyphen or underscore). -/
theorem replaceDisallowed_keep (name : String) :
    ∀ c ∈ replaceDisallowed name, keepChar c = true := by
  intro c hc
  rw [replaceDisallowed] at hc
  rcases List.mem_map.mp hc with ⟨a, _, ha⟩
  by_cases h : keepChar a
  · rw [← ha]; simp [h]
  · rw [← ha]; simp [h]; rfl

/-- Helper: stripping underscores only removes characters. -/
theorem mem_stripUnderscores {l : List Char} {c : Char}
    (h : c ∈ stripUnderscores l) : c ∈ l := by
  rw [stripUnderscores, List.mem_reverse] at h
  have h2 := List.Sublist.mem h (List.dropWhile_sublist _)
  rw [List.mem_reverse] at h2
  exact List.Sublist.mem h2 (List.dropWhile_sublist _)

/-- Helper: the replacement step fixes a string of kept characters. -/
theorem replaceDisallowed_of_kept {l : List Char}
    (h : ∀ c ∈ l, keepChar c = true) : replaceDisallowed (String.mk l) = l := by
  rw [replaceDisallowed]
  have hl : String.toList (String.mk l) = l := rfl
  rw [hl]
  have hmap : l.map (fun c => if keepChar c then c else '_') = l.map id :=
    List.map_congr_left (fun a ha => by simp [h a ha])
  rw [hmap, List.map_id]

/-- Claim C5: `safe_filename` is idempotent; sanitizing an
already-sanitized sheet name returns it unchanged. -/
theorem safe_filename_idempotent (s : String) :
    safe_filename (safe_filename s) = safe_filename s := by
  by_cases h : (stripUnderscores (replaceDisallowed s)).isEmpty
  · have hs : safe_filename s = "sheet" := by
      rw [safe_filename]; simp [h]
    rw [hs]
    decide
  · have hchars : ∀ c ∈ stripUnderscores (replaceDisallowed s), keepChar c = true :=
      fun c hc => replaceDisallowed_keep s c (mem_stripUnderscores hc)
    have hs : safe_filename s = String.mk (stripUnderscores (replaceDisallowed s)) := by
      rw [safe_filename]; simp [h]
    rw [hs]
    simp only [safe_filename]
    rw [replaceDisallowed_of_kept hchars, stripUnderscores_idem]
    simp [h]

/-! ## Claim C6: the output entries are sorted by csv_path -/

/-- Helper: the sort comparison is transitive. -/
theorem csvLe_trans (a b c : OutputEntry) (h1 : csvLe a b = true)
    (h2 : csvLe b c = true) : csvLe a c = true := by
  simp only [csvLe, decide_eq_true_eq] at h1 h2 ⊢
  exact le_trans h1 h2

/-- Helper: the sort comparison is total. -/
theorem csvLe_total (a b : OutputEntry) : (csvLe a b || csvLe b a) = true := by
  rcases le_total a.csv_path b.csv_path with h | h <;> simp [csvLe, h]

/-- Claim C6: for every workbook (any hash function, any paths, any sheet
list in any order) the entries returned by the exporter are sorted by
`csv_path` in ascending lexicographic order. -/
theorem export_output_sorted (hash : String → String) (excel_path outdir : String)
    (sheets : List Sheet) :
    List.Pairwise (fun a b : OutputEntry => a.csv_path ≤ b.csv_path)
      (export_sheets_to_csv hash excel_path outdir sheets) := by
  simp only [export_sheets_to_csv]
  exact (List.sorted_mergeSort csvLe_trans csvLe_total _).imp
    (fun h => by simpa [csvLe] using h)

/-! ## Claim C2: uniqueness of csv_path within a manifest -/

/-- Helper: the csv paths of the export result are a permutation of the
csv paths taken in workbook order. -/
theorem export_csv_paths_perm (hash : String → String) (excel_path outdir : String)
    (sheets : List Sheet) :
    ((export_sheets_to_csv hash excel_path outdir sheets).map (fun o => o.csv_path)).Perm
      (sheets.map (fun s => csvPathFor outdir excel_path s.name)) := by
  simp only [export_sheets_to_csv]
  have h := (List.mergeSort_perm (sheets.map (fun s =>
    { sheet_name := s.name
      csv_path := csvPathFor outdir excel_path s.name
      sha256 := hash s.csv : OutputEntry })) csvLe).map (fun o => o.csv_path)
  simpa [List.map_map, Function.comp] using h

/-- Claim C2, counterexample: a workbook with the two sheets named
`"A B"` and `"A_B"` (both sanitize to the stem `A_B`) produces two output
entries with the same `csv_path`, so the csv_path values of a manifest are
not always pairwise distinct. -/
theorem export_csv_paths_collision :
    ¬ ((export_sheets_to_csv (fun c => c) "data.xlsx" "out"
        [{ name := "A B", csv := "x" }, { name := "A_B", csv := "y" }]).map
        (fun o => o.csv_path)).Nodup := by
  intro hn
  have h2 := (export_csv_paths_perm (fun c => c) "data.xlsx" "out"
    [{ name := "A B", csv := "x" }, { name := "A_B", csv := "y" }]).nodup hn
  simp only [List.map_cons, List.map_nil] at h2
  have heq : csvPathFor "out" "data.xlsx" "A B" = csvPathFor "out" "data.xlsx" "A_B" := by
    decide
  rw [heq] at h2
  simp at h2

/-- Helper: appending a fixed front and back to a string is injective. -/
theorem append_three_inj (pre suf : String) : ∀ x y : String,
    pre ++ x ++ suf = pre ++ y ++ suf → x = y := by
  intro x y h
  have hd := congrArg String.data h
  simp only [String.data_append, List.append_assoc] at hd
  exact String.ext (List.append_cancel_right (List.append_cancel_left hd))

/-- Claim C2 (amended): within one manifest the `csv_path` values of the
output entries are pairwise distinct provided the sheets' sanitized
filename stems are pairwise distinct; a workbook with two sheets whose
names sanitize to the same stem yields a duplicated `csv_path` instead
(see the counterexample). -/
theorem export_csv_paths_nodup (hash : String → String) (excel_path outdir : String)
    (sheets : List Sheet)
    (h : (sheets.map (fun s => safe_filename s.name)).Nodup) :
    ((export_sheets_to_csv hash excel_path outdir sheets).map
      (fun o => o.csv_path)).Nodup := by
  have hinj : Function.Injective (fun stem : String =>
      outdir ++ "/" ++ pathStem excel_path ++ "/" ++ stem ++ ".csv") :=
    fun x y hxy => append_three_inj (outdir ++ "/" ++ pathStem excel_path ++ "/") ".csv" x y hxy
  have hbase : (sheets.map (fun s => csvPathFor outdir excel_path s.name)).Nodup := by
    have hcomp : (fun s : Sheet => csvPathFor outdir excel_path s.name)
        = ((fun stem : String => outdir ++ "/" ++ pathStem excel_path ++ "/" ++ stem ++ ".csv")
            ∘ (fun s : Sheet => safe_filename s.name)) := rfl
    rw [hcomp, ← List.map_map]
    exact List.Nodup.map hinj h
  exact (export_csv_paths_perm hash excel_path outdir sheets).symm.nodup hbase

/-- Witness for C2's amended theorem: the spec's example workbook with
sheets named `"Q1 Data"` and `"Q2-Data"` has distinct sanitized stems and
therefore distinct csv paths. -/
theorem export_csv_paths_nodup_witness :
    (([{ name := "Q1 Data", csv := "x" }, { name := "Q2-Data", csv := "y" }] :
        List Sheet).map (fun s => safe_filename s.name)).Nodup
    ∧ ((export_sheets_to_csv (fun c => c) "d.xlsx" "out"
        [{ name := "Q1 Data", csv := "x" }, { name := "Q2-Data", csv := "y" }]).map
        (fun o => o.csv_path)).Nodup :=
  ⟨by decide,
   export_csv_paths_nodup (fun c => c) "d.xlsx" "out"
     [{ name := "Q1 Data", csv := "x" }, { name := "Q2-Data", csv := "y" }] (by decide)⟩

/-! ## Claim C8: a failing run leaves the manifest file unchanged -/

/-- Helper: when the export loop fails, the world it reports has the
manifest file of the input world (only CSV files were touched). -/
theorem exportLoop_error_manifest (hash : String → String) (excel_path outdir : String) :
    ∀ (sheets : List Sheet) (w : World) (acc : List OutputEntry) (e : String) (w2 : World),
    exportLoop hash excel_path outdir sheets w acc = .error (e, w2) →
    w2.manifestFile = w.manifestFile := by
  intro sheets
  induction sheets with
  | nil =>
    intro w acc e w2 h
    simp [exportLoop] at h
  | cons s rest ih =>
    intro w acc e w2 h
    simp only [exportLoop] at h
    split at h
    · simpa using ih _ _ _ _ h
    · simp only [Except.error.injEq, Prod.mk.injEq] at h
      rw [← h.2]

/-- Claim C8: whenever any step of the pipeline fails (missing source
file, previous-manifest parse error, source-read error, workbook parse
error, CSV write error), the run aborts with the manifest file unchanged
from its prior state; the manifest file is replaced only by the final step
of a fully successful run. -/
theorem main_error_manifest_unchanged (hash : String → String)
    (excel outdir manifest_path : String) (w : World) (e : String) (w2 : World)
    (h : main_run hash excel outdir manifest_path w = .error (e, w2)) :
    w2.manifestFile = w.manifestFile := by
  rw [main_run] at h
  split at h
  · simp only [Except.error.injEq, Prod.mk.injEq] at h
    rw [← h.2]
  · split at h
    · simp only [Except.error.injEq, Prod.mk.injEq] at h
      rw [← h.2]
    · split at h
      · simp only [Except.error.injEq, Prod.mk.injEq] at h
        rw [← h.2]
      · split at h
        · simp only [Except.error.injEq, Prod.mk.injEq] at h
          rw [← h.2]
        · split at h
          · rename_i ew hel
            obtain ⟨e0, w0⟩ := ew
            simp only [Except.error.injEq, Prod.mk.injEq] at h
            rw [← h.2]
            exact exportLoop_error_manifest hash excel outdir _ w [] e0 w0 hel
          · simp at h

/-- Witness for C8: a concrete world in which every CSV write fails makes
the run abort and the manifest file (absent beforehand) stays untouched. -/
theorem main_error_manifest_unchanged_witness :
    main_run (fun c => c) "d.xlsx" "out" "m.json"
        { excelExists := true, excelSha := "abc", hashReadOk := true,
          workbook := .ok [{ name := "S1", csv := "h" }],
          csvWriteOk := fun _ => false, csvFiles := [], manifestFile := .absent }
      = .error ("I/O error writing " ++ csvPathFor "out" "d.xlsx" "S1",
          { excelExists := true, excelSha := "abc", hashReadOk := true,
            workbook := .ok [{ name := "S1", csv := "h" }],
            csvWriteOk := fun _ => false, csvFiles := [], manifestFile := .absent })
    ∧ World.manifestFile
        { excelExists := true, excelSha := "abc", hashReadOk := true,
          workbook := .ok [{ name := "S1", csv := "h" }],
          csvWriteOk := fun _ => false, csvFiles := [], manifestFile := .absent }
      = FileState.absent :=
  ⟨rfl,
   main_error_manifest_unchanged (fun c => c) "d.xlsx" "out" "m.json"
     { excelExists := true, excelSha := "abc", hashReadOk := true,
       workbook := .ok [{ name := "S1", csv := "h" }],
       csvWriteOk := fun _ => false, csvFiles := [], manifestFile := .absent }
     ("I/O error writing " ++ csvPathFor "out" "d.xlsx" "S1")
     { excelExists := true, excelSha := "abc", hashReadOk := true,
       workbook := .ok [{ name := "S1", csv := "h" }],
       csvWriteOk := fun _ => false, csvFiles := [], manifestFile := .absent } rfl⟩

/-! ## Claim C3: a second run with unchanged source keeps the version -/

/-- Helper: a successful export loop leaves the source hash and the
manifest file of the world unchanged (it only adds CSV files). -/
theorem exportLoop_ok_fields (hash : String → String) (excel_path outdir : String) :
    ∀ (sheets : List Sheet) (w : World) (acc : List OutputEntry)
      (w1 : World) (out : List OutputEntry),
    exportLoop hash excel_path outdir sheets w acc = .ok (w1, out) →
    w1.excelSha = w.excelSha := by
  intro sheets
  induction sheets with
  | nil =>
    intro w acc w1 out h
    simp only [exportLoop, Except.ok.injEq, Prod.mk.injEq] at h
    rw [← h.1]
  | cons s rest ih =>
    intro w acc w1 out h
    simp only [exportLoop] at h
    split at h
    · simpa using ih _ _ _ _ h
    · simp at h

/-- Helper: a successful run writes a manifest file that parses to a
document whose version is `next_version` of the previous document and
whose recorded source hash is the world's source hash, and it does not
change the source hash. -/
theorem main_run_ok_spec (hash : String → String) (excel outdir manifest_path : String)
    (w w1 : World) (h : main_run hash excel outdir manifest_path w = .ok w1) :
    ∃ old : ManifestDoc, read_json w.manifestFile = .ok old ∧
      w1.excelSha = w.excelSha ∧
      w1.manifestFile = .present (.ok
        { version := some (next_version old w.excelSha),
          source := some { sha256 := some w.excelSha } }) := by
  rw [main_run] at h
  by_cases hex : w.excelExists = false
  · rw [if_pos hex] at h; simp at h
  · rw [if_neg hex] at h
    cases hold : read_json w.manifestFile with
    | error er => rw [hold] at h; simp at h
    | ok old =>
      rw [hold] at h
      dsimp only [] at h
      by_cases hh : w.hashReadOk = false
      · rw [if_pos hh] at h; simp at h
      · rw [if_neg hh] at h
        cases hwb : w.workbook with
        | error ew => rw [hwb] at h; simp at h
        | ok sheets =>
          rw [hwb] at h
          dsimp only [] at h
          cases hel : exportLoop hash excel outdir sheets w [] with
          | error ep => rw [hel] at h; simp at h
          | ok pair =>
            obtain ⟨wE, outputs0⟩ := pair
            rw [hel] at h
            dsimp only [] at h
            simp only [Except.ok.injEq] at h
            refine ⟨old, rfl, ?_, ?_⟩
            · rw [← h]
              have hfld := exportLoop_ok_fields hash excel outdir sheets w [] wE outputs0 hel
              simpa using hfld
            · rw [← h]
              rfl

/-- Claim C3: running the pipeline twice in succession with the source
bytes unchanged between the runs (the second run starts from the world the
first run produced, so it reads the manifest the first run wrote and
hashes the same source bytes) yields the same version in the second run's
manifest as in the first run's. -/
theorem second_run_version_unchanged (hash : String → String)
    (excel outdir manifest_path : String) (w w1 w2 : World)
    (h1 : main_run hash excel outdir manifest_path w = .ok w1)
    (h2 : main_run hash excel outdir manifest_path w1 = .ok w2) :
    manifestVersion w2.manifestFile = manifestVersion w1.manifestFile := by
  obtain ⟨old1, hr1, hsha1, hm1⟩ := main_run_ok_spec hash excel outdir manifest_path w w1 h1
  obtain ⟨old2, hr2, hsha2, hm2⟩ := main_run_ok_spec hash excel outdir manifest_path w1 w2 h2
  rw [hm1] at hr2
  simp only [read_json, Except.ok.injEq] at hr2
  rw [hm2, hm1, hsha1, ← hr2]
  simp [manifestVersion, next_version]

/-- Witness for C3: a concrete world run twice; the first run writes
version 1 and the second run, reading it back with the same source hash,
writes version 1 again. -/
theorem second_run_version_unchanged_witness :
    (main_run (fun c => c) "d.xlsx" "out" "m.json"
        { excelExists := true, excelSha := "abc", hashReadOk := true,
          workbook := .ok [], csvWriteOk := fun _ => true, csvFiles := [],
          manifestFile := .absent }
      = .ok
        { excelExists := true, excelSha := "abc", hashReadOk := true,
          workbook := .ok [], csvWriteOk := fun _ => true, csvFiles := [],
          manifestFile := .present (.ok
            { version := some 1, source := some { sha256 := some "abc" } }) }
      ∧ main_run (fun c => c) "d.xlsx" "out" "m.json"
        { excelExists := true, excelSha := "abc", hashReadOk := true,
          workbook := .ok [], csvWriteOk := fun _ => true, csvFiles := [],
          manifestFile := .present (.ok
            { version := some 1, source := some { sha256 := some "abc" } }) }
      = .ok
        { excelExists := true, excelSha := "abc", hashReadOk := true,
          workbook := .ok [], csvWriteOk := fun _ => true, csvFiles := [],
          manifestFile := .present (.ok
            { version := some 1, source := some { sha256 := some "abc" } }) })
    ∧ manifestVersion
        (World.manifestFile
          { excelExists := true, excelSha := "abc", hashReadOk := true,
            workbook := .ok [], csvWriteOk := fun _ => true, csvFiles := [],
            manifestFile := .present (.ok
              { version := some 1, source := some { sha256 := some "abc" } }) })
      = manifestVersion
        (World.manifestFile
          { excelExists := true, excelSha := "abc", hashReadOk := true,
            workbook := .ok [], csvWriteOk := fun _ => true, csvFiles := [],
            manifestFile := .present (.ok
              { version := some 1, source := some { sha256 := some "abc" } }) }) :=
  ⟨⟨rfl, rfl⟩,
   second_run_version_unchanged (fun c => c) "d.xlsx" "out" "m.json"
     { excelExists := true, excelSha := "abc", hashReadOk := true,
       workbook := .ok [], csvWriteOk := fun _ => true, csvFiles := [],
       manifestFile := .absent }
     { excelExists := true, excelSha := "abc", hashReadOk := true,
       workbook := .ok [], csvWriteOk := fun _ => true, csvFiles := [],
       manifestFile := .present (.ok
         { version := some 1, source := some { sha256 := some "abc" } }) }
     { excelExists := true, excelSha := "abc", hashReadOk := true,
       workbook := .ok [], csvWriteOk := fun _ => true, csvFiles := [],
       manifestFile := .present (.ok
         { version := some 1, source := some { sha256 := some "abc" } }) }
     rfl rfl⟩
